import Mathlib

/-!
Shallow embedding of the weaviate-plugin repository (Python) in Lean 4.

Python runtime values are modelled by the inductive type `PyVal`; rationals
stand for Python floats (IEEE special values NaN/inf are outside the model);
behaviour external to the repository (the Weaviate SDK, `json.loads`,
`float(str)`, `str(obj)`) is passed in as explicit function parameters
("oracles"), so theorems quantify over all possible behaviours of those
externals.  Exceptions are modelled with `Option`/`Except`.
-/

set_option autoImplicit false

namespace WeaviatePlugin

/-- Model of a Python runtime value (the JSON-able fragment this code
manipulates): `None`, `bool`, `int`, `float` (as ℚ), `str`, `list`, `dict`
(an insertion-ordered association list, as produced by `json.loads`). -/
inductive PyVal where
  | pnone
  | bool (b : Bool)
  | int (n : Int)
  | float (q : ℚ)
  | str (s : String)
  | list (xs : List PyVal)
  | dict (fields : List (String × PyVal))

/-- Key membership in a Python dict, `k in d`. -/
def hasKeyL (fields : List (String × PyVal)) (k : String) : Bool :=
  fields.any (fun p => p.1 == k)

/-- `d[k]` / `d.get(k)` on a Python dict (keys produced by `json.loads` are
unique, so first-match lookup agrees with Python's). -/
def lookupL (fields : List (String × PyVal)) (k : String) : Option PyVal :=
  (fields.find? (fun p => p.1 == k)).map Prod.snd

/-- Python truthiness (`bool(v)`), for the `or` idioms in the source (a
rational is zero exactly when its normalized numerator is). -/
def pyTruthy : PyVal → Bool
  | .pnone => false
  | .bool b => b
  | .int n => n != 0
  | .float q => q.num != 0
  | .str s => s != ""
  | .list xs => !xs.isEmpty
  | .dict f => !f.isEmpty

/-- Python `a or b` (value-returning). -/
def pyOr (a b : PyVal) : PyVal := if pyTruthy a then a else b

/-- The characters Python's `str.strip()` removes (ASCII fragment). -/
def pyIsSpace (c : Char) : Bool :=
  c = ' ' || c = '\t' || c = '\n' || c = '\r' || c = '\x0b' || c = '\x0c'

/-- Core of `str.strip()` on character lists: drop a leading run satisfying
`p`, then a trailing one. -/
def striplist (p : Char → Bool) (l : List Char) : List Char :=
  ((l.dropWhile p).reverse.dropWhile p).reverse

/-- Python `str.strip()`: drop leading and trailing whitespace. -/
def pystrip (s : String) : String :=
  ⟨striplist pyIsSpace s.data⟩

/-- Python `s.split(",")` (auxiliary: accumulates the current chunk). -/
def pysplitCommaAux : List Char → List Char → List String
  | [], acc => [⟨acc.reverse⟩]
  | c :: rest, acc =>
    if c = ',' then ⟨acc.reverse⟩ :: pysplitCommaAux rest []
    else pysplitCommaAux rest (c :: acc)

/-- Python `s.split(",")`: split on every comma; `"".split(",") == [""]`. -/
def pysplitComma (s : String) : List String := pysplitCommaAux s.data []

/-- Python `s.startswith("[")`. -/
def startsWithBracket (s : String) : Bool :=
  match s.data with
  | '[' :: _ => true
  | _ => false

/-- Value of a decimal digit string (callers guarantee all chars are digits). -/
def digitsToNat (cs : List Char) : Nat :=
  cs.foldl (fun a c => 10 * a + (c.toNat - 48)) 0

/-- Python `int(s)` on a string: strip, optional sign, decimal digits;
`none` models the `ValueError` on anything else (digit-group underscores are
not modelled). -/
def pyIntOfStr (s : String) : Option Int :=
  match (pystrip s).data with
  | [] => none
  | '+' :: rest =>
    if !rest.isEmpty && rest.all Char.isDigit then some (digitsToNat rest) else none
  | '-' :: rest =>
    if !rest.isEmpty && rest.all Char.isDigit then some (-(digitsToNat rest : Int)) else none
  | cs =>
    if cs.all Char.isDigit then some (digitsToNat cs) else none

/-- Python `int(x)`: identity on ints, bools as 0/1, truncation toward zero on
floats (`tdiv` of the normalized numerator by the positive denominator),
string parsing, and `none` for the `TypeError` on other types. -/
def pyIntOf : PyVal → Option Int
  | .int n => some n
  | .bool b => some (if b then 1 else 0)
  | .float q => some (q.num.tdiv q.den)
  | .str s => pyIntOfStr s
  | _ => none

/-- Python `float(x)`; the behaviour of `float` on strings is external
(CPython's parser) and is supplied as the oracle `floatOfStr`, where `none`
models a raised `ValueError`. -/
def pyFloatOf (floatOfStr : String → Option ℚ) : PyVal → Option ℚ
  | .int n => some n
  | .bool b => some (if b then 1 else 0)
  | .float q => some q
  | .str s => floatOfStr s
  | _ => none

/-- Python `str(x)`: the identity on strings; the rendering of every other
value is external and supplied as the oracle `strOracle`. -/
def pyStrWith (strOracle : PyVal → String) : PyVal → String
  | .str s => s
  | v => strOracle v

/-! ### src/utils/validators.py -/

/-- `validate_limit` from src/utils/validators.py: `int(limit)` then a range
check; a `TypeError`/`ValueError` from the conversion yields `False`. -/
def validate_limit (limit : PyVal) (max_limit : Int) : Bool :=
  match pyIntOf limit with
  | some val => decide (1 ≤ val ∧ val ≤ max_limit)
  | none => false

/-- `a ≤ b` on ℚ as a boolean: the `≤` of ℚ is by definition
`Rat.blt b a = false`. -/
def ratLeB (a b : ℚ) : Bool := !(Rat.blt b a)

/-- `validate_alpha` from src/utils/validators.py: `0.0 <= float(alpha) <= 1.0`. -/
def validate_alpha (floatOfStr : String → Option ℚ) (alpha : PyVal) : Bool :=
  match pyFloatOf floatOfStr alpha with
  | some val => ratLeB 0 val && ratLeB val 1
  | none => false

/-- `isinstance(x, (int, float))`: Python `bool` is a subclass of `int`, so
booleans count as numbers here, exactly as in the source. -/
def isPyNumber : PyVal → Bool
  | .int _ => true
  | .float _ => true
  | .bool _ => true
  | _ => false

/-- `validate_vector` from src/utils/validators.py (`expected_dim = 0` or
`None` skips the dimension check, since both are falsy). -/
def validate_vector (vector : PyVal) (expected_dim : Option Int) : Bool :=
  match vector with
  | .list xs =>
    if xs.isEmpty then false
    else if !xs.all isPyNumber then false
    else
      match expected_dim with
      | some d => if d != 0 && (xs.length : Int) != d then false else true
      | none => true
  | _ => false

/-- `validate_where_filter` from src/utils/validators.py.  The
`json.dumps(where_filter)` serialisability check always succeeds on `PyVal`
values (every `PyVal` is JSON-serialisable, and `dumps` accepts non-finite
floats by default), so it imposes no condition in the model. -/
def validate_where_filter (where_filter : PyVal) : Bool :=
  match where_filter with
  | .dict fields =>
    match lookupL fields "operator" with
    | some (.str op) =>
      if op == "And" || op == "Or" || op == "Not" then hasKeyL fields "operands"
      else hasKeyL fields "path"
    | some _ => hasKeyL fields "path"
    | none => false
  | _ => false

/-! ### src/utils/helpers.py -/

/-- `create_error_response` from src/utils/helpers.py. -/
def create_error_response (error_message : String) (error_code : String)
    (details : Option PyVal) : PyVal :=
  .dict ([("success", .bool false), ("error", .str error_message),
          ("error_code", .str error_code)] ++
    (match details with | some d => [("details", d)] | none => []))

/-- `create_success_response` from src/utils/helpers.py. -/
def create_success_response (data : PyVal) (message : String) : PyVal :=
  .dict [("success", .bool true), ("data", data), ("message", .str message)]

/-- `safe_json_parse` from src/utils/helpers.py, with the tools' implicit
`default=None`.  `json.loads` is external and supplied as the oracle
`jsonLoads` (`none` models a `JSONDecodeError`). -/
def safe_json_parse (jsonLoads : String → Option PyVal) (value : PyVal) :
    Option PyVal :=
  match value with
  | .dict f => some (.dict f)
  | .list xs => some (.list xs)
  | .str v => if pystrip v = "" then none else jsonLoads (pystrip v)
  | _ => none

/-- `csv_or_list_to_list` from src/utils/helpers.py: CSV string or list to a
normalized `list[str]`, else `None`. -/
def csv_or_list_to_list (strOracle : PyVal → String) (value : PyVal) :
    Option (List String) :=
  match value with
  | .pnone => none
  | .list xs =>
    some ((xs.map (fun v => pystrip (pyStrWith strOracle v))).filter (fun e => e != ""))
  | v =>
    if pystrip (pyStrWith strOracle v) = "" then none
    else
      some (((pysplitComma (pystrip (pyStrWith strOracle v))).map pystrip).filter
        (fun e => e != ""))

/-- `_value_field_for_python` from src/utils/helpers.py. -/
def _value_field_for_python : PyVal → String
  | .bool _ => "valueBoolean"
  | .int _ => "valueInt"
  | .float _ => "valueNumber"
  | _ => "valueText"

/-- `_single_cond` (local function inside `build_where_filter`). -/
def _single_cond (k : String) (v : PyVal) : PyVal :=
  .dict [("path", .list [.str k]), ("operator", .str "Equal"),
         (_value_field_for_python v, v)]

/-- `build_where_filter` from src/utils/helpers.py; the input is the ordered
item list of the `conditions` dict. -/
def build_where_filter (conditions : List (String × PyVal)) : PyVal :=
  match conditions with
  | [] => .dict []
  | [(k, v)] => _single_cond k v
  | items =>
    .dict [("operator", .str "And"),
           ("operands", .list (items.map (fun p => _single_cond p.1 p.2)))]

/-- Python `k in v` for the membership tests in `format_search_results`;
`none` models the `TypeError` raised when `v` is not a container/str. -/
def pyIn (k : String) : PyVal → Option Bool
  | .dict fs => some (hasKeyL fs k)
  | .list xs => some (xs.any (fun x => match x with | .str s => s == k | _ => false))
  | .str s => some ((s.data.tails).any (fun t => k.data.isPrefixOf t))
  | _ => none

/-- One iteration of the loop in `format_search_results`
(src/utils/helpers.py).  Returns `none` when the iteration raises: the
`"distance" in meta` membership test on a numeric `metadata` value raises
`TypeError` outside any `try`; everything inside the `try` block degrades to
`pass`. -/
def formatItem (floatOfStr : String → Option ℚ) (include_metadata : Bool)
    (r : List (String × PyVal)) : Option PyVal :=
  let uuid := (lookupL r "uuid").getD .pnone
  let props := pyOr ((lookupL r "properties").getD .pnone) (.dict [])
  if include_metadata then
    let meta := pyOr ((lookupL r "metadata").getD .pnone) (.dict [])
    match pyIn "distance" meta with
    | none => none
    | some hasDist =>
      match pyIn "relevance" meta with
      | none => none
      | some hasRel =>
        let meta2 :=
          if hasDist && !hasRel then
            match meta with
            | .dict mfields =>
              match lookupL mfields "distance" with
              | some dv =>
                match pyFloatOf floatOfStr dv with
                | some d =>
                  PyVal.dict (mfields ++ [("relevance", .float (max 0 (min 1 (1 - d))))])
                | none => meta
              | none => meta
            | _ => meta
          else meta
        some (.dict [("uuid", uuid), ("properties", props), ("metadata", meta2)])
  else
    some (.dict [("uuid", uuid), ("properties", props)])

/-- `format_search_results` from src/utils/helpers.py.  The input is typed
`List[Dict[str, Any]]` in the source (a falsy `results` maps to the empty
list); `none` models an uncaught exception from some iteration. -/
def format_search_results (floatOfStr : String → Option ℚ)
    (results : List (List (String × PyVal))) (include_metadata : Bool) :
    Option (List PyVal) :=
  results.mapM (formatItem floatOfStr include_metadata)

/-! ### src/utils/client.py

Each `WeaviateClient` method wraps a sequence of SDK calls (connect plus the
actual request) in a `try`.  The SDK is external, so the whole call sequence
is summarised by one `Except SdkExc α` parameter: `.ok` is the value the SDK
sequence produced, `.error` an exception it raised.  A method whose Lean
return type has no `Except` layer catches every exception (each of its code
paths returns); an `Except` in the return type records that the method can
let an exception escape to its caller. -/

/-- An exception from the SDK / connection layer: either
`weaviate.exceptions.UnexpectedStatusCodeError` (with its optional
`status_code` attribute) or any other exception with its message. -/
inductive SdkExc where
  | statusCode (code : Option Int)
  | otherExc (msg : String)

/-- Python `str(e)` on a modelled exception (the exact rendering of an
`UnexpectedStatusCodeError` is external to the repo; only its shape matters
here). -/
def sdkExcStr : SdkExc → String
  | .statusCode (some n) => "UnexpectedStatusCodeError " ++ toString n
  | .statusCode none => "UnexpectedStatusCodeError"
  | .otherExc m => m

/-- `list_collections`: normalizes to names on success, `[]` on any
exception. -/
def list_collections (call : Except SdkExc (List String)) : List String :=
  match call with
  | .ok names => names
  | .error _ => []

/-- `create_collection`: `True` on success, `False` on any exception. -/
def create_collection (call : Except SdkExc Unit) : Bool :=
  match call with
  | .ok _ => true
  | .error _ => false

/-- `delete_collection`: `True` on success, `False` on any exception. -/
def delete_collection (call : Except SdkExc Unit) : Bool :=
  match call with
  | .ok _ => true
  | .error _ => false

/-- `insert_objects`: the per-object failures are re-raised into the outer
handler, which logs and then executes `raise e` — every exception propagates
to the caller. -/
def insert_objects (call : Except SdkExc (List String)) :
    Except SdkExc (List String) :=
  match call with
  | .ok uuids => .ok uuids
  | .error e => .error e

/-- `update_object`: `except UnexpectedStatusCodeError` returns `False`
(whether or not the code is 404), and `except Exception` also returns
`False`. -/
def update_object (call : Except SdkExc Unit) : Bool :=
  match call with
  | .ok _ => true
  | .error (.statusCode _) => false
  | .error (.otherExc _) => false

/-- `delete_object`: only `except UnexpectedStatusCodeError` exists (return
`False`); any other exception — including the `ConnectionError` from
`connect()` — propagates. -/
def delete_object (call : Except SdkExc Unit) : Except SdkExc Bool :=
  match call with
  | .ok _ => .ok true
  | .error (.statusCode _) => .ok false
  | .error (.otherExc m) => .error (.otherExc m)

/-- The object returned by `fetch_object_by_id`: `uuid` is the `str()` of the
`uuid` attribute when present, `properties`/`metadata` are the attribute
values when present (`getattr(..., None)` otherwise). -/
structure FetchedObj where
  uuid : Option String
  properties : Option PyVal
  metadata : Option PyVal

/-- `get_object`: a missing object or any exception yields `None`. -/
def get_object (uuid_arg : String) (call : Except SdkExc (Option FetchedObj)) :
    Option PyVal :=
  match call with
  | .ok none => none
  | .ok (some o) =>
    some (.dict [("uuid", .str (o.uuid.getD uuid_arg)),
                 ("properties", o.properties.getD .pnone),
                 ("metadata", o.metadata.getD .pnone)])
  | .error _ => none

/-- The metadata attribute of an SDK result object (attributes absent or
`None` collapse to `none`, matching `getattr(..., None)`). -/
structure SdkMeta where
  distance : Option PyVal
  score : Option PyVal

/-- One SDK search-result object: `uuid` is the `str()` of the `uuid`
attribute when present (the source falls back to `str("") = ""`). -/
structure SdkObj where
  uuid : Option String
  properties : Option PyVal
  metadata : Option SdkMeta

/-- `vector_search`: normalizes each result object into
a dict of `uuid`, `properties`, and a `distance` metadata dict; any
exception yields `[]`. -/
def vector_search (call : Except SdkExc (List SdkObj)) : List PyVal :=
  match call with
  | .ok objs =>
    objs.map (fun o =>
      .dict [("uuid", .str (o.uuid.getD "")),
             ("properties", o.properties.getD .pnone),
             ("metadata", .dict [("distance",
               (o.metadata.bind (fun m => m.distance)).getD .pnone)])])
  | .error _ => []

/-- `hybrid_search`: same shape with a `score` metadata entry; any exception
yields `[]`. -/
def hybrid_search (call : Except SdkExc (List SdkObj)) : List PyVal :=
  match call with
  | .ok objs =>
    objs.map (fun o =>
      .dict [("uuid", .str (o.uuid.getD "")),
             ("properties", o.properties.getD .pnone),
             ("metadata", .dict [("score",
               (o.metadata.bind (fun m => m.score)).getD .pnone)])])
  | .error _ => []

/-- `text_search` (BM25 keyword search): same shape with an empty metadata
dict; any exception yields `[]`. -/
def text_search (call : Except SdkExc (List SdkObj)) : List PyVal :=
  match call with
  | .ok objs =>
    objs.map (fun o =>
      .dict [("uuid", .str (o.uuid.getD "")),
             ("properties", o.properties.getD .pnone),
             ("metadata", .dict [])])
  | .error _ => []

/-- The result mapping `insert_objects_batch` builds (both on the loop path
and in its `except` branch). -/
structure BatchRes where
  inserted_count : Int
  failed_count : Int
  errors : List PyVal
  total_processed : Int

/-- `insert_objects_batch`: the batch loop is summarised by `call`; the outer
`except` converts any exception into a failure mapping — nothing
propagates. -/
def insert_objects_batch (objects : List PyVal) (call : Except SdkExc BatchRes) :
    BatchRes :=
  match call with
  | .ok res => res
  | .error e =>
    ⟨0, objects.length,
     [.dict [("index", .int 0), ("error", .str (sdkExcStr e)), ("object", .pnone)]],
     objects.length⟩

/-- `delete_by_filter`: the dry-run/delete body is summarised by `call`; the
`except` branch converts any exception into an error mapping — nothing
propagates. -/
def delete_by_filter (dry_run : Bool) (call : Except SdkExc PyVal) : PyVal :=
  match call with
  | .ok res => res
  | .error e =>
    .dict [("deleted_count", .int 0), ("failed_count", .int 1),
           ("error", .str (sdkExcStr e)), ("dry_run", .bool dry_run)]

/-! ### Tool layer (src/tools)

Each `_invoke` generator is modelled up to the client call: a `ToolStage`
value says whether parameter validation rejected the invocation (one error
message yielded, the Weaviate client never queried) or succeeded (a search is
attempted with the normalized arguments).  String-typed tool parameters are
modelled as the strings the source extracts (`or ''` maps an absent or `None`
parameter to `""`). -/

/-- A message yielded by a tool: `create_json_message` or
`create_text_message`. -/
inductive ToolMsg where
  | jsonMsg (v : PyVal)
  | textMsg (s : String)

/-- Outcome of the validation phase of a tool invocation. -/
inductive ToolStage (Args : Type) where
  | reject (m : ToolMsg)
  | search (args : Args)

/-- The CSV branch of query-vector parsing shared by the vector and hybrid
tools: `[float(x.strip()) for x in qv_raw.split(',') if x.strip()]`; `none`
models the `ValueError` from `float`. -/
def parseCsvVector (floatOfStr : String → Option ℚ) (qv_raw : String) :
    Option (List ℚ) :=
  (((pysplitComma qv_raw).map pystrip).filter (fun p => p != "")).mapM floatOfStr

/-- The `return_properties` normalization inlined in the vector and hybrid
tools: `None` when the (already stripped) string is blank, else a CSV split
with blank entries dropped. -/
def rpNormalize (rp_str : String) : Option (List String) :=
  if rp_str = "" then none
  else some (((pysplitComma rp_str).map pystrip).filter (fun p => p != ""))

/-- Arguments with which `VectorSearchTool._invoke` calls
`WeaviateClient.vector_search`. -/
structure VsArgs where
  collection : String
  query_vector : PyVal
  limit : Int
  where_filter : Option PyVal
  return_properties : Option (List String)

/-- Query-vector parsing in `VectorSearchTool._invoke`: the JSON branch (a
failed parse falls through to `validate_vector(None)` below), or the CSV
branch (a `ValueError` yields an immediate error message). -/
def vsVecParse (floatOfStr : String → Option ℚ) (jsonLoads : String → Option PyVal)
    (qv_raw : String) : Except String PyVal :=
  if startsWithBracket qv_raw then
    match safe_json_parse jsonLoads (.str qv_raw) with
    | some v => .ok v
    | none => .ok .pnone
  else
    match parseCsvVector floatOfStr qv_raw with
    | some fs => .ok (.list (fs.map PyVal.float))
    | none => .error "Invalid query vector. Use a JSON array or comma-separated numbers"

/-- The `where_filter` handling shared by the vector and hybrid tools:
`some none` = no filter given, `some (some v)` = parsed and validated filter,
`none` = rejected (unparsable JSON or failed `validate_where_filter`). -/
def wfCheck (jsonLoads : String → Option PyVal) (wf_str : String) :
    Option (Option PyVal) :=
  if wf_str = "" then some none
  else
    match safe_json_parse jsonLoads (.str wf_str) with
    | none => none
    | some v => if validate_where_filter v then some (some v) else none

/-- `VectorSearchTool._invoke` (src/tools/vector_search.py) up to the client
call. -/
def vectorInvoke (floatOfStr : String → Option ℚ) (jsonLoads : String → Option PyVal)
    (cn qv wf rp : String) (limit_raw : PyVal) : ToolStage VsArgs :=
  if pystrip cn = "" then
    .reject (.jsonMsg (create_error_response "Collection name is required" "WEAVIATE_ERROR" none))
  else if pystrip qv = "" then
    .reject (.jsonMsg (create_error_response "Query vector is required" "WEAVIATE_ERROR" none))
  else
    match pyIntOf limit_raw with
    | none =>
      .reject (.jsonMsg (create_error_response "Limit must be an integer between 1 and 1000" "WEAVIATE_ERROR" none))
    | some limit =>
      if !validate_limit (.int limit) 1000 then
        .reject (.jsonMsg (create_error_response "Limit must be between 1 and 1000" "WEAVIATE_ERROR" none))
      else
        match vsVecParse floatOfStr jsonLoads (pystrip qv) with
        | .error m => .reject (.jsonMsg (create_error_response m "WEAVIATE_ERROR" none))
        | .ok qvec =>
          if !validate_vector qvec none then
            .reject (.jsonMsg (create_error_response "Query vector must be a non-empty list of numbers" "WEAVIATE_ERROR" none))
          else
            match wfCheck jsonLoads (pystrip wf) with
            | none =>
              .reject (.jsonMsg (create_error_response "Invalid where filter format. Provide valid JSON" "WEAVIATE_ERROR" none))
            | some owf =>
              .search ⟨pystrip cn, qvec, limit, owf, rpNormalize (pystrip rp)⟩

/-- `_to_list` from src/tools/keyword_search.py (same body as
`csv_or_list_to_list`): CSV string or list to a clean `list[str]`, else
`None`. -/
def _to_list (strOracle : PyVal → String) (value : PyVal) : Option (List String) :=
  match value with
  | .pnone => none
  | .list xs =>
    some ((xs.map (fun v => pystrip (pyStrWith strOracle v))).filter (fun e => e != ""))
  | v =>
    if pystrip (pyStrWith strOracle v) = "" then none
    else
      some (((pysplitComma (pystrip (pyStrWith strOracle v))).map pystrip).filter
        (fun e => e != ""))

/-- Arguments with which `KeywordSearchTool._invoke` calls
`WeaviateClient.text_search`. -/
structure KsArgs where
  collection : String
  query : String
  limit : Int
  where_filter : Option PyVal
  return_properties : Option (List String)
  search_properties : Option (List String)

/-- The `where_filter` handling in `KeywordSearchTool._invoke`: a JSON string
or a dict is accepted; any other type is silently ignored. -/
def kwWfCheck (jsonLoads : String → Option PyVal) (wf_raw : PyVal) :
    Except String (Option PyVal) :=
  match wf_raw with
  | .str s =>
    if pystrip s = "" then .ok none
    else
      match safe_json_parse jsonLoads (.str (pystrip s)) with
      | none => .error "Invalid where filter. Provide valid JSON"
      | some v =>
        if validate_where_filter v then .ok (some v)
        else .error "Invalid where filter. Provide valid JSON"
  | .dict f =>
    if validate_where_filter (.dict f) then .ok (some (.dict f))
    else .error "Invalid where filter JSON"
  | _ => .ok none

/-- `KeywordSearchTool._invoke` (src/tools/keyword_search.py) up to the client
call. -/
def keywordInvoke (strOracle : PyVal → String) (jsonLoads : String → Option PyVal)
    (cn q : String) (limit_raw wf_raw rp_in sp_in : PyVal) : ToolStage KsArgs :=
  if pystrip cn = "" then
    .reject (.jsonMsg (create_error_response "Collection name is required" "WEAVIATE_ERROR" none))
  else if pystrip q = "" then
    .reject (.jsonMsg (create_error_response "Query is required" "WEAVIATE_ERROR" none))
  else
    match pyIntOf limit_raw with
    | none =>
      .reject (.jsonMsg (create_error_response "Limit must be an integer between 1 and 1000" "WEAVIATE_ERROR" none))
    | some limit =>
      if !validate_limit (.int limit) 1000 then
        .reject (.jsonMsg (create_error_response "Limit must be between 1 and 1000" "WEAVIATE_ERROR" none))
      else
        match kwWfCheck jsonLoads wf_raw with
        | .error m => .reject (.jsonMsg (create_error_response m "WEAVIATE_ERROR" none))
        | .ok owf =>
          .search ⟨pystrip cn, pystrip q, limit, owf,
                   _to_list strOracle rp_in, _to_list strOracle sp_in⟩

/-- Arguments with which `HybridSearchTool._invoke` calls
`WeaviateClient.hybrid_search`. -/
structure HsArgs where
  collection : String
  query : String
  query_vector : Option PyVal
  alpha : ℚ
  limit : Int
  where_filter : Option PyVal
  return_properties : Option (List String)

/-- `.strip()` applied to the `query_vector` parameter when it is a string
(non-strings pass through unchanged). -/
def qvStrip : PyVal → PyVal
  | .str s => .str (pystrip s)
  | v => v

/-- The query-vector handling in `HybridSearchTool._invoke`.  A truthy
non-string value reaches `qv_raw.startswith('[')`, raising `AttributeError`,
which the outermost handler reports as a "Tool execution failed" JSON
envelope (the interpolated `str(e)` is abbreviated here). -/
def hsVecParse (floatOfStr : String → Option ℚ) (jsonLoads : String → Option PyVal)
    (qvs : PyVal) : Except ToolMsg (Option PyVal) :=
  if !pyTruthy qvs then .ok none
  else
    match qvs with
    | .str s =>
      match (if startsWithBracket s then
               match safe_json_parse jsonLoads (.str s) with
               | some v => Except.ok v
               | none => Except.ok PyVal.pnone
             else
               match parseCsvVector floatOfStr s with
               | some fs => Except.ok (PyVal.list (fs.map PyVal.float))
               | none => Except.error
                   (ToolMsg.textMsg "Error: Invalid query vector. Use JSON array or comma-separated numbers")) with
      | .error m => .error m
      | .ok v =>
        if !validate_vector v none then
          .error (.textMsg "Error: Query vector must be a non-empty list of numbers")
        else .ok (some v)
    | _ =>
      .error (.jsonMsg (create_error_response "Tool execution failed: AttributeError" "WEAVIATE_ERROR" none))

/-- `HybridSearchTool._invoke` (src/tools/hybrid_search.py) up to the client
call.  Its validation errors are plain text messages, unlike the JSON
envelopes of the other search tools. -/
def hybridInvoke (floatOfStr : String → Option ℚ) (jsonLoads : String → Option PyVal)
    (cn q wf rp : String) (qv_raw alpha_raw limit_raw : PyVal) : ToolStage HsArgs :=
  if pystrip cn = "" then
    .reject (.textMsg "Error: Collection name is required")
  else if pystrip q = "" && !pyTruthy (qvStrip qv_raw) then
    .reject (.textMsg "Error: Either query text or query vector is required")
  else
    match pyFloatOf floatOfStr alpha_raw with
    | none => .reject (.textMsg "Error: Alpha must be a number between 0.0 and 1.0")
    | some a =>
      if !validate_alpha floatOfStr (.float a) then
        .reject (.textMsg "Error: Alpha must be between 0.0 and 1.0")
      else
        match pyIntOf limit_raw with
        | none => .reject (.textMsg "Error: Limit must be an integer between 1 and 1000")
        | some limit =>
          if !validate_limit (.int limit) 1000 then
            .reject (.textMsg "Error: Limit must be between 1 and 1000")
          else
            match hsVecParse floatOfStr jsonLoads (qvStrip qv_raw) with
            | .error m => .reject m
            | .ok oqv =>
              match wfCheck jsonLoads (pystrip wf) with
              | none => .reject (.textMsg "Error: Invalid where filter format. Use valid JSON")
              | some owf =>
                .search ⟨pystrip cn, pystrip q, oqv, a, limit, owf, rpNormalize (pystrip rp)⟩

/-- The payload normalization at the top of the `insert` branch of
`DataManagementTool._invoke`: a single JSON object is wrapped into a
one-element list, a list passes as-is, anything else is rejected. -/
def dmInsertPayload : PyVal → Except String (List PyVal)
  | .dict f => .ok [.dict f]
  | .list xs => .ok xs
  | _ => .error "Object data must be a JSON object or an array of objects"

/-- The `insert` branch of `DataManagementTool._invoke`
(src/tools/data_management.py), from the parsed `object_data` value to the
yielded response envelope.  The client calls are supplied as functions of the
payload: `batchClient` models `client.insert_objects_batch` (which cannot
raise) and `singleClient` models `client.insert_objects`, whose exceptions
the tool catches in its inner `try`. -/
def dmInsert (collection_name mode : String) (batchClient : List PyVal → BatchRes)
    (singleClient : List PyVal → Except SdkExc (List String))
    (object_data : PyVal) : ToolMsg :=
  match dmInsertPayload object_data with
  | .error m => .jsonMsg (create_error_response m "WEAVIATE_ERROR" none)
  | .ok payload =>
    if mode = "batch" then
      .jsonMsg (create_success_response
        (.dict [("inserted_count", .int (batchClient payload).inserted_count),
                ("failed_count", .int (batchClient payload).failed_count),
                ("errors", .list (batchClient payload).errors),
                ("collection", .str collection_name)])
        ("Batch insert completed: " ++ toString (batchClient payload).inserted_count ++
         " inserted, " ++ toString (batchClient payload).failed_count ++ " failed"))
    else
      match singleClient payload with
      | .error e =>
        .jsonMsg (create_error_response ("Insert failed: " ++ sdkExcStr e) "WEAVIATE_ERROR" none)
      | .ok uuids =>
        if uuids.isEmpty then
          .jsonMsg (create_error_response "Failed to insert objects - no UUIDs returned" "WEAVIATE_ERROR" none)
        else
          .jsonMsg (create_success_response
            (.dict [("inserted_uuids", .list (uuids.map PyVal.str)),
                    ("count", .int uuids.length),
                    ("collection", .str collection_name)])
            ("Successfully inserted " ++ toString uuids.length ++ " objects"))

/-! ### Lemmas about the embedding -/

theorem head?_dropWhile_false {α : Type} (p : α → Bool) :
    ∀ (l : List α) (a : α), (l.dropWhile p).head? = some a → p a = false := by
  intro l
  induction l with
  | nil => intro a h; simp [List.dropWhile] at h
  | cons x xs ih =>
    intro a h
    rw [List.dropWhile_cons] at h
    by_cases hx : p x = true
    · rw [if_pos hx] at h
      exact ih a h
    · rw [if_neg hx] at h
      simp only [List.head?_cons, Option.some.injEq] at h
      subst h
      exact Bool.eq_false_iff.mpr hx

theorem dropWhile_of_head?_false {α : Type} (p : α → Bool) (l : List α)
    (h : ∀ a, l.head? = some a → p a = false) : l.dropWhile p = l := by
  cases l with
  | nil => rfl
  | cons x xs => simp [List.dropWhile_cons, h x rfl]

theorem getLast?_dropWhile {α : Type} (p : α → Bool) (l : List α)
    (h : l.dropWhile p ≠ []) : (l.dropWhile p).getLast? = l.getLast? := by
  conv_rhs => rw [← List.takeWhile_append_dropWhile (p := p) (l := l)]
  rw [List.getLast?_append_of_ne_nil _ h]

theorem striplist_idem (p : Char → Bool) (l : List Char) :
    striplist p (striplist p l) = striplist p l := by
  unfold striplist
  by_cases hB : (l.dropWhile p).reverse.dropWhile p = []
  · rw [hB]; rfl
  · have hBhead : ∀ a, ((l.dropWhile p).reverse.dropWhile p).head? = some a → p a = false :=
      fun a ha => head?_dropWhile_false p _ a ha
    have hrevhead :
        ∀ a, ((l.dropWhile p).reverse.dropWhile p).reverse.head? = some a → p a = false := by
      intro a ha
      rw [List.head?_reverse, getLast?_dropWhile p _ hB, List.getLast?_reverse] at ha
      exact head?_dropWhile_false p l a ha
    rw [dropWhile_of_head?_false p _ hrevhead, List.reverse_reverse,
        dropWhile_of_head?_false p _ hBhead]

theorem pystrip_idem (s : String) : pystrip (pystrip s) = pystrip s :=
  congrArg String.mk (striplist_idem pyIsSpace s.data)

theorem hasKeyL_of_lookup {mfields : List (String × PyVal)} {k : String} {v : PyVal}
    (h : lookupL mfields k = some v) : hasKeyL mfields k = true := by
  unfold lookupL at h
  unfold hasKeyL
  cases hf : mfields.find? (fun p => p.1 == k) with
  | none => rw [hf] at h; simp at h
  | some p =>
    have h1 := List.find?_some hf
    have h2 := List.mem_of_find?_eq_some hf
    exact List.any_eq_true.2 ⟨p, h2, h1⟩

theorem lookupL_append_self (mfields : List (String × PyVal)) (k : String) (v : PyVal)
    (h : hasKeyL mfields k = false) : lookupL (mfields ++ [(k, v)]) k = some v := by
  unfold lookupL
  rw [List.find?_append]
  have hnone : mfields.find? (fun p => p.1 == k) = none := by
    rw [List.find?_eq_none]
    intro x hx hpx
    have : hasKeyL mfields k = true := List.any_eq_true.2 ⟨x, hx, hpx⟩
    rw [h] at this
    cases this
  rw [hnone]
  simp [List.find?]

theorem pyOr_dict_empty (f : List (String × PyVal)) :
    pyOr (.dict f) (.dict []) = .dict f := by
  cases f <;> rfl

theorem mapM_option_get? {α β : Type} (f : α → Option β) :
    ∀ (l : List α) (out : List β), l.mapM f = some out →
      ∀ (i : ℕ) (a : α), l.get? i = some a → ∃ b, f a = some b ∧ out.get? i = some b := by
  intro l
  induction l with
  | nil => intro out h i a ha; simp at ha
  | cons x xs ih =>
    intro out h i a ha
    rw [List.mapM_cons] at h
    cases hfx : f x with
    | none => rw [hfx] at h; simp at h
    | some y =>
      rw [hfx] at h
      cases hxs : xs.mapM f with
      | none => rw [hxs] at h; simp at h
      | some ys =>
        rw [hxs] at h
        simp at h
        subst h
        cases i with
        | zero =>
          simp only [List.get?] at ha
          cases ha
          exact ⟨y, hfx, rfl⟩
        | succ n =>
          obtain ⟨b, hb1, hb2⟩ := ih ys hxs n a (by simpa [List.get?] using ha)
          exact ⟨b, hb1, by simpa [List.get?] using hb2⟩

/-! ### The claims -/

/-- Claim C5: invoking the data-management insert operation with `object_data`
a single JSON object `d` and with the one-element array `[d]` is identical
behaviour: the same payload reaches the insert path, and the yielded response
envelope is the same, for every mode and every behaviour of the underlying
client calls. -/
theorem c5_insert_singleton_eq (collection_name mode : String)
    (batchClient : List PyVal → BatchRes)
    (singleClient : List PyVal → Except SdkExc (List String))
    (fields : List (String × PyVal)) :
    dmInsertPayload (PyVal.dict fields) = dmInsertPayload (PyVal.list [PyVal.dict fields]) ∧
    dmInsert collection_name mode batchClient singleClient (PyVal.dict fields) =
      dmInsert collection_name mode batchClient singleClient (PyVal.list [PyVal.dict fields]) :=
  ⟨rfl, rfl⟩

/-- Claim C2, counterexample: `return_properties` strings are never parsed as
JSON — a JSON array string is CSV-split like any other text, so the CSV
rendering `"a,b,c"` and the JSON rendering `'["a","b","c"]'` of the same list
do NOT normalize to the same list (in any of the three normalizers used by
the search tools). -/
theorem c2_return_properties_cex :
    rpNormalize "a,b,c" = some ["a", "b", "c"] ∧
    rpNormalize "[\"a\",\"b\",\"c\"]" = some ["[\"a\"", "\"b\"", "\"c\"]"] ∧
    rpNormalize "[\"a\",\"b\",\"c\"]" ≠ rpNormalize "a,b,c" ∧
    _to_list (fun _ => "") (.str "[\"a\",\"b\",\"c\"]") ≠
      _to_list (fun _ => "") (.str "a,b,c") ∧
    csv_or_list_to_list (fun _ => "") (.str "[\"a\",\"b\",\"c\"]") ≠
      csv_or_list_to_list (fun _ => "") (.str "a,b,c") := by
  refine ⟨rfl, rfl, ?_, ?_, ?_⟩ <;> decide

/-- Claim C2 (amended): a CSV string and the corresponding Python list of its
comma-separated parts normalize to the same list of strings; a JSON array
string is not JSON-parsed but treated as CSV text (see the counterexample). -/
theorem c2_csv_vs_list_agree (strOracle : PyVal → String) (s : String)
    (h : pystrip s ≠ "") :
    csv_or_list_to_list strOracle (PyVal.str s) =
      csv_or_list_to_list strOracle
        (PyVal.list ((pysplitComma (pystrip s)).map PyVal.str)) ∧
    _to_list strOracle (PyVal.str s) =
      _to_list strOracle (PyVal.list ((pysplitComma (pystrip s)).map PyVal.str)) := by
  constructor <;>
  · simp [csv_or_list_to_list, _to_list, pyStrWith, h, List.map_map, Function.comp]
    congr 1

/-- Claim C2, witness for the amended statement at a concrete input. -/
theorem c2_csv_vs_list_agree_witness :
    pystrip " a, b " ≠ "" ∧
    (csv_or_list_to_list (fun _ => "") (PyVal.str " a, b ") =
       csv_or_list_to_list (fun _ => "")
         (PyVal.list ((pysplitComma (pystrip " a, b ")).map PyVal.str)) ∧
     _to_list (fun _ => "") (PyVal.str " a, b ") =
       _to_list (fun _ => "")
         (PyVal.list ((pysplitComma (pystrip " a, b ")).map PyVal.str))) :=
  ⟨by decide, c2_csv_vs_list_agree (fun _ => "") " a, b " (by decide)⟩

/-- Claim C1, counterexample: two `WeaviateClient` methods let exceptions
escape to their caller: `insert_objects` re-raises every exception, and
`delete_object` has no handler for anything but
`UnexpectedStatusCodeError`. -/
theorem c1_exception_propagates_cex :
    insert_objects (.error (SdkExc.otherExc "boom")) =
      .error (SdkExc.otherExc "boom") ∧
    delete_object (.error (SdkExc.otherExc "connection refused")) =
      .error (SdkExc.otherExc "connection refused") :=
  ⟨rfl, rfl⟩

/-- Claim C1 (amended): every listed `WeaviateClient` method except
`insert_objects` and `delete_object` catches every exception at the method
boundary and returns an empty result (`[]`/`None`), a boolean failure, or a
failure mapping; `delete_object` catches only `UnexpectedStatusCodeError`
(returning `False`) and propagates any other exception; `insert_objects`
re-raises every exception to its caller. -/
theorem c1_exception_policy (e : SdkExc) (m : String) (c : Option Int)
    (objects : List PyVal) (dry : Bool) (uuid_arg : String) :
    list_collections (.error e) = [] ∧
    create_collection (.error e) = false ∧
    delete_collection (.error e) = false ∧
    update_object (.error e) = false ∧
    get_object uuid_arg (.error e) = none ∧
    vector_search (.error e) = [] ∧
    hybrid_search (.error e) = [] ∧
    text_search (.error e) = [] ∧
    insert_objects_batch objects (.error e) =
      ⟨0, objects.length,
       [.dict [("index", .int 0), ("error", .str (sdkExcStr e)), ("object", .pnone)]],
       objects.length⟩ ∧
    delete_by_filter dry (.error e) =
      .dict [("deleted_count", .int 0), ("failed_count", .int 1),
             ("error", .str (sdkExcStr e)), ("dry_run", .bool dry)] ∧
    delete_object (.error (.statusCode c)) = .ok false ∧
    delete_object (.error (.otherExc m)) = .error (.otherExc m) ∧
    insert_objects (.error e) = .error e := by
  cases e <;>
    exact ⟨rfl, rfl, rfl, rfl, rfl, rfl, rfl, rfl, rfl, rfl, rfl, rfl, rfl⟩

/-- Claim C8: on every non-empty conditions dict, `build_where_filter`
produces a filter accepted by `validate_where_filter`; one condition yields a
leaf (with `path` and `operator` keys, operator `Equal`, and no `And`
wrapper/`operands`), and two or more conditions yield an `And` of exactly one
operand per key-value pair. -/
theorem c8_build_where_filter (items : List (String × PyVal)) (h : items ≠ []) :
    validate_where_filter (build_where_filter items) = true ∧
    (∀ k v, items = [(k, v)] →
      ∃ fields, build_where_filter items = PyVal.dict fields ∧
        hasKeyL fields "path" = true ∧ hasKeyL fields "operator" = true ∧
        lookupL fields "operator" = some (PyVal.str "Equal") ∧
        hasKeyL fields "operands" = false) ∧
    (2 ≤ items.length →
      build_where_filter items =
        PyVal.dict [("operator", PyVal.str "And"),
                    ("operands", PyVal.list (items.map (fun p => _single_cond p.1 p.2)))] ∧
      (items.map (fun p => _single_cond p.1 p.2)).length = items.length) := by
  match items with
  | [] => exact absurd rfl h
  | [(k, v)] =>
    refine ⟨?_, ?_, ?_⟩
    · cases v <;> rfl
    · intro k2 v2 he
      obtain ⟨rfl, rfl⟩ : k = k2 ∧ v = v2 := by
        simpa [Prod.ext_iff] using he
      refine ⟨_, rfl, ?_, ?_, ?_, ?_⟩ <;> cases v <;> rfl
    · intro h2; simp at h2
  | (k1, v1) :: (k2, v2) :: rest =>
    refine ⟨rfl, ?_, fun _ => ⟨rfl, by simp⟩⟩
    intro k v he
    simp at he

/-- Claim C8, witness at a concrete two-condition input. -/
theorem c8_build_where_filter_witness :
    validate_where_filter
      (build_where_filter [("a", PyVal.int 1), ("b", PyVal.bool true)]) = true :=
  (c8_build_where_filter [("a", PyVal.int 1), ("b", PyVal.bool true)]
    (List.cons_ne_nil _ _)).1

theorem mem_strip_filter {α : Type} (g : α → String) (xs : List α) (e : String)
    (h : e ∈ (xs.map (fun x => pystrip (g x))).filter (fun x => x != "")) :
    e ≠ "" ∧ pystrip e = e := by
  rcases List.mem_filter.1 h with ⟨hmem, hne⟩
  rcases List.mem_map.1 hmem with ⟨x, _, rfl⟩
  exact ⟨by simpa using hne, pystrip_idem _⟩

theorem c10_default_case (t : String) (l : List String)
    (h : (if t = "" then none
          else some (((pysplitComma t).map pystrip).filter (fun x => x != ""))) = some l)
    (e : String) (he : e ∈ l) : e ≠ "" ∧ pystrip e = e := by
  split at h
  · exact absurd h (by simp)
  · simp only [Option.some.injEq] at h
    subst h
    exact mem_strip_filter id (pysplitComma t) e he

/-- Claim C10: `csv_or_list_to_list` returns `None` or a list whose every
element is a non-empty string with no leading or trailing whitespace
(a `pystrip` fixed point). -/
theorem c10_csv_or_list_elements (strOracle : PyVal → String) (v : PyVal)
    (l : List String) (h : csv_or_list_to_list strOracle v = some l) :
    ∀ e ∈ l, e ≠ "" ∧ pystrip e = e := by
  intro e he
  cases v with
  | pnone => simp [csv_or_list_to_list] at h
  | list xs =>
    simp only [csv_or_list_to_list, Option.some.injEq] at h
    subst h
    exact mem_strip_filter _ xs e he
  | bool b =>
    exact c10_default_case _ l (by simpa [csv_or_list_to_list] using h) e he
  | int n =>
    exact c10_default_case _ l (by simpa [csv_or_list_to_list] using h) e he
  | float q =>
    exact c10_default_case _ l (by simpa [csv_or_list_to_list] using h) e he
  | str s =>
    exact c10_default_case _ l (by simpa [csv_or_list_to_list] using h) e he
  | dict f =>
    exact c10_default_case _ l (by simpa [csv_or_list_to_list] using h) e he

/-- Claim C10, witness at a concrete messy CSV input. -/
theorem c10_csv_or_list_elements_witness :
    csv_or_list_to_list (fun _ => "") (PyVal.str " a ,, b ") = some ["a", "b"] ∧
    ("a" ≠ "" ∧ pystrip "a" = "a") :=
  ⟨by decide,
   c10_csv_or_list_elements (fun _ => "") (PyVal.str " a ,, b ") ["a", "b"]
     (by decide) "a" (by decide)⟩

/-- Claim C9: whenever `format_search_results` (metadata included) adds a
`relevance` key — the result's metadata dict has a numeric `distance` and no
pre-existing `relevance` — the added value is `1 - distance` clamped to
[0, 1], and in particular lies in that closed interval. -/
theorem c9_relevance_in_unit_interval (floatOfStr : String → Option ℚ)
    (results : List (List (String × PyVal))) (out : List PyVal)
    (i : ℕ) (r mfields : List (String × PyVal)) (dv : PyVal) (d : ℚ)
    (hr : results.get? i = some r)
    (hmeta : lookupL r "metadata" = some (PyVal.dict mfields))
    (hdist : lookupL mfields "distance" = some dv)
    (hnum : dv = PyVal.float d ∨ ∃ n : Int, dv = PyVal.int n ∧ d = n)
    (hnorel : hasKeyL mfields "relevance" = false)
    (hout : format_search_results floatOfStr results true = some out) :
    ∃ item, out.get? i = some item ∧
      item = PyVal.dict
        [("uuid", (lookupL r "uuid").getD PyVal.pnone),
         ("properties", pyOr ((lookupL r "properties").getD PyVal.pnone) (PyVal.dict [])),
         ("metadata", PyVal.dict
           (mfields ++ [("relevance", PyVal.float (max 0 (min 1 (1 - d))))]))] ∧
      lookupL (mfields ++ [("relevance", PyVal.float (max 0 (min 1 (1 - d))))]) "relevance"
        = some (PyVal.float (max 0 (min 1 (1 - d)))) ∧
      0 ≤ max 0 (min 1 (1 - d)) ∧ max 0 (min 1 (1 - d)) ≤ 1 := by
  obtain ⟨item, hitem, hout_i⟩ := mapM_option_get? _ results out hout i r hr
  have hpyfloat : pyFloatOf floatOfStr dv = some d := by
    rcases hnum with rfl | ⟨n, rfl, rfl⟩ <;> rfl
  have hmeta2 : pyOr ((lookupL r "metadata").getD PyVal.pnone) (PyVal.dict [])
      = PyVal.dict mfields := by
    rw [hmeta]
    exact pyOr_dict_empty mfields
  have hkd : hasKeyL mfields "distance" = true := hasKeyL_of_lookup hdist
  have hfi : formatItem floatOfStr true r = some (PyVal.dict
      [("uuid", (lookupL r "uuid").getD PyVal.pnone),
       ("properties", pyOr ((lookupL r "properties").getD PyVal.pnone) (PyVal.dict [])),
       ("metadata", PyVal.dict
         (mfields ++ [("relevance", PyVal.float (max 0 (min 1 (1 - d))))]))]) := by
    simp only [formatItem, hmeta2, pyIn, hkd, hnorel, if_true, Bool.not_false,
      Bool.and_self, hdist, hpyfloat]
  rw [hfi] at hitem
  obtain rfl := Option.some.inj hitem
  refine ⟨_, hout_i, rfl, lookupL_append_self mfields "relevance" _ hnorel, ?_, ?_⟩
  · exact le_max_left 0 _
  · exact max_le zero_le_one (min_le_left 1 _)

/-- Claim C9, witness at a concrete input with distance 2 (relevance clamps
to the interval). -/
theorem c9_relevance_in_unit_interval_witness :
    ∃ item,
      ([PyVal.dict [("uuid", PyVal.pnone), ("properties", PyVal.dict []),
         ("metadata", PyVal.dict [("distance", PyVal.float 2),
           ("relevance", PyVal.float (max 0 (min 1 (1 - 2))))])]].get? 0 = some item) ∧
      item = PyVal.dict
        [("uuid", (lookupL [("metadata", PyVal.dict [("distance", PyVal.float 2)])] "uuid").getD PyVal.pnone),
         ("properties", pyOr ((lookupL [("metadata", PyVal.dict [("distance", PyVal.float 2)])] "properties").getD PyVal.pnone) (PyVal.dict [])),
         ("metadata", PyVal.dict
           ([("distance", PyVal.float 2)] ++ [("relevance", PyVal.float (max 0 (min 1 (1 - 2))))]))] ∧
      lookupL ([("distance", PyVal.float 2)] ++ [("relevance", PyVal.float (max 0 (min 1 (1 - 2))))]) "relevance"
        = some (PyVal.float (max 0 (min 1 (1 - 2)))) ∧
      0 ≤ max 0 (min 1 (1 - (2:ℚ))) ∧ max 0 (min 1 (1 - (2:ℚ))) ≤ 1 :=
  c9_relevance_in_unit_interval (fun _ => none)
    [[("metadata", PyVal.dict [("distance", PyVal.float 2)])]] _ 0
    [("metadata", PyVal.dict [("distance", PyVal.float 2)])]
    [("distance", PyVal.float 2)] (PyVal.float 2) 2
    rfl rfl rfl (Or.inl rfl) rfl rfl

/-- The normalized search-result shape shared by the three query methods:
exactly the keys `uuid` (a string value), `properties`, and `metadata` (a
dict value). -/
def isSearchResultShape (e : PyVal) : Prop :=
  ∃ u p m,
    e = PyVal.dict [("uuid", PyVal.str u), ("properties", p), ("metadata", PyVal.dict m)]

/-- Claim C7: every element of the lists returned by
`WeaviateClient.vector_search`, `hybrid_search` and `text_search` has the one
normalized result shape, whatever the SDK returned. -/
theorem c7_normalized_result_shape (c1 c2 c3 : Except SdkExc (List SdkObj)) :
    (∀ e ∈ vector_search c1, isSearchResultShape e) ∧
    (∀ e ∈ hybrid_search c2, isSearchResultShape e) ∧
    (∀ e ∈ text_search c3, isSearchResultShape e) := by
  refine ⟨?_, ?_, ?_⟩
  · intro e he
    cases c1 with
    | error err => simp [vector_search] at he
    | ok objs =>
      simp only [vector_search, List.mem_map] at he
      obtain ⟨o, _, rfl⟩ := he
      exact ⟨_, _, _, rfl⟩
  · intro e he
    cases c2 with
    | error err => simp [hybrid_search] at he
    | ok objs =>
      simp only [hybrid_search, List.mem_map] at he
      obtain ⟨o, _, rfl⟩ := he
      exact ⟨_, _, _, rfl⟩
  · intro e he
    cases c3 with
    | error err => simp [text_search] at he
    | ok objs =>
      simp only [text_search, List.mem_map] at he
      obtain ⟨o, _, rfl⟩ := he
      exact ⟨_, _, _, rfl⟩

/-- Claim C7, witness on a concrete one-object SDK response. -/
theorem c7_normalized_result_shape_witness :
    isSearchResultShape (PyVal.dict [("uuid", PyVal.str "u1"),
      ("properties", PyVal.pnone), ("metadata", PyVal.dict [("distance", PyVal.pnone)])]) :=
  (c7_normalized_result_shape (.ok [⟨some "u1", none, none⟩]) (.ok []) (.ok [])).1 _
    (by exact List.mem_singleton.mpr rfl)

/-! ### Inversion lemmas: what must have held when a tool reached its search -/

theorem vectorInvoke_search_inv (floatOfStr : String → Option ℚ)
    (jsonLoads : String → Option PyVal) (cn qv wf rp : String) (limit_raw : PyVal)
    (a : VsArgs)
    (h : vectorInvoke floatOfStr jsonLoads cn qv wf rp limit_raw = .search a) :
    (∃ k, pyIntOf limit_raw = some k ∧ validate_limit (PyVal.int k) 1000 = true) ∧
    (∃ owf, wfCheck jsonLoads (pystrip wf) = some owf) := by
  unfold vectorInvoke at h
  repeat' (first | exact ToolStage.noConfusion h | split at h)
  rename_i hcn hqv x1 limit hI hlim x2 qvec hvp hvv x3 owf hwf
  exact ⟨⟨limit, hI, by simpa using hlim⟩, ⟨owf, hwf⟩⟩

theorem keywordInvoke_search_inv (strOracle : PyVal → String)
    (jsonLoads : String → Option PyVal) (cn q : String)
    (limit_raw wf_raw rp_in sp_in : PyVal) (a : KsArgs)
    (h : keywordInvoke strOracle jsonLoads cn q limit_raw wf_raw rp_in sp_in = .search a) :
    (∃ k, pyIntOf limit_raw = some k ∧ validate_limit (PyVal.int k) 1000 = true) ∧
    (∃ owf, kwWfCheck jsonLoads wf_raw = Except.ok owf) := by
  unfold keywordInvoke at h
  repeat' (first | exact ToolStage.noConfusion h | split at h)
  rename_i hcn hq x1 limit hI hlim x2 owf hwf
  exact ⟨⟨limit, hI, by simpa using hlim⟩, ⟨owf, hwf⟩⟩

theorem hybridInvoke_search_inv (floatOfStr : String → Option ℚ)
    (jsonLoads : String → Option PyVal) (cn q wf rp : String)
    (qv_raw alpha_raw limit_raw : PyVal) (a : HsArgs)
    (h : hybridInvoke floatOfStr jsonLoads cn q wf rp qv_raw alpha_raw limit_raw =
      .search a) :
    (∃ k, pyIntOf limit_raw = some k ∧ validate_limit (PyVal.int k) 1000 = true) ∧
    (∃ owf, wfCheck jsonLoads (pystrip wf) = some owf) := by
  unfold hybridInvoke at h
  repeat' (first | exact ToolStage.noConfusion h | split at h)
  rename_i hcn hqc xA alpha hA halpha xI limit hI hlim xV oqv hvp xW owf hwf
  exact ⟨⟨limit, hI, by simpa using hlim⟩, ⟨owf, hwf⟩⟩

theorem wfCheck_some_inv (jsonLoads : String → Option PyVal) (wf_str : String)
    (owf : Option PyVal) (h : wfCheck jsonLoads wf_str = some owf) :
    wf_str = "" ∨
    ∃ v, safe_json_parse jsonLoads (.str wf_str) = some v ∧
      validate_where_filter v = true := by
  unfold wfCheck at h
  split at h
  · exact Or.inl (by assumption)
  · split at h
    · simp at h
    · rename_i v hv
      split at h
      · exact Or.inr ⟨v, hv, by assumption⟩
      · simp at h

theorem kwWfCheck_str_ok_inv (jsonLoads : String → Option PyVal) (s : String)
    (owf : Option PyVal) (h : kwWfCheck jsonLoads (.str s) = .ok owf) :
    pystrip s = "" ∨
    ∃ v, safe_json_parse jsonLoads (.str (pystrip s)) = some v ∧
      validate_where_filter v = true := by
  simp only [kwWfCheck] at h
  split at h
  · exact Or.inl (by assumption)
  · split at h
    · simp at h
    · rename_i v hv
      split at h
      · exact Or.inr ⟨v, hv, by assumption⟩
      · simp at h

/-! ### Claims C3, C4, C6 -/

/-- A concrete `float(str)` oracle for closed instances: CPython's
`float("1")` is `1.0`. -/
def floatOfStrOne : String → Option ℚ := fun s => if s = "1" then some 1 else none

/-- A concrete `json.loads` oracle for closed instances: every string is
rejected as malformed JSON. -/
def jsonLoadsNone : String → Option PyVal := fun _ => none

/-- A concrete `str()` oracle for closed instances. -/
def strOracleBlank : PyVal → String := fun _ => ""

/-- The rejected limit inputs of claim C3: the integer 0, the integer 1001,
or a string `int()` fails on. -/
def badLimit (v : PyVal) : Prop :=
  v = PyVal.int 0 ∨ v = PyVal.int 1001 ∨ ∃ s, v = PyVal.str s ∧ pyIntOfStr s = none

theorem badLimit_no_valid {v : PyVal} (hb : badLimit v) {k : Int}
    (hI : pyIntOf v = some k)
    (hval : validate_limit (PyVal.int k) 1000 = true) : False := by
  rcases hb with rfl | rfl | ⟨s, rfl, hs⟩
  · obtain rfl : (0 : Int) = k := Option.some.inj hI
    exact absurd hval (by decide)
  · obtain rfl : (1001 : Int) = k := Option.some.inj hI
    exact absurd hval (by decide)
  · rw [show pyIntOf (.str s) = pyIntOfStr s from rfl, hs] at hI
    cases hI

/-- Claim C3: in each of the vector, keyword and hybrid search tools, a
`limit` of 0, of 1001, or a non-numeric string makes the invocation reject
(an error message is yielded and no search is performed), whatever the other
parameters; and a limit of 1000 passes validation — on otherwise-valid
concrete inputs the search is attempted with `limit = 1000`.  (The hybrid
tool emits its rejections as plain text `"Error: ..."` messages rather than
JSON error envelopes.) -/
theorem c3_limit_bounds :
    (∀ (floatOfStr : String → Option ℚ) (jsonLoads : String → Option PyVal)
       (cn qv wf rp : String) (lr : PyVal), badLimit lr →
       ∃ m, vectorInvoke floatOfStr jsonLoads cn qv wf rp lr = .reject m) ∧
    (∀ (strOracle : PyVal → String) (jsonLoads : String → Option PyVal)
       (cn q : String) (lr wf_raw rp_in sp_in : PyVal), badLimit lr →
       ∃ m, keywordInvoke strOracle jsonLoads cn q lr wf_raw rp_in sp_in = .reject m) ∧
    (∀ (floatOfStr : String → Option ℚ) (jsonLoads : String → Option PyVal)
       (cn q wf rp : String) (qv_raw alpha_raw lr : PyVal), badLimit lr →
       ∃ m, hybridInvoke floatOfStr jsonLoads cn q wf rp qv_raw alpha_raw lr = .reject m) ∧
    (∃ a, vectorInvoke floatOfStrOne jsonLoadsNone "C" "1" "" "" (PyVal.int 1000) =
       .search a ∧ a.limit = 1000) ∧
    (∃ a, keywordInvoke strOracleBlank jsonLoadsNone "C" "q" (PyVal.int 1000)
       PyVal.pnone PyVal.pnone PyVal.pnone = .search a ∧ a.limit = 1000) ∧
    (∃ a, hybridInvoke floatOfStrOne jsonLoadsNone "C" "q" "" "" (PyVal.str "")
       (PyVal.float 1) (PyVal.int 1000) = .search a ∧ a.limit = 1000) := by
  refine ⟨?_, ?_, ?_, ⟨_, rfl, rfl⟩, ⟨_, rfl, rfl⟩, ⟨_, rfl, rfl⟩⟩
  · intro f j cn qv wf rp lr hb
    cases hQ : vectorInvoke f j cn qv wf rp lr with
    | reject m => exact ⟨m, rfl⟩
    | search a =>
      obtain ⟨k, hI, hval⟩ := (vectorInvoke_search_inv f j cn qv wf rp lr a hQ).1
      exact (badLimit_no_valid hb hI hval).elim
  · intro so j cn q lr wf_raw rp_in sp_in hb
    cases hQ : keywordInvoke so j cn q lr wf_raw rp_in sp_in with
    | reject m => exact ⟨m, rfl⟩
    | search a =>
      obtain ⟨k, hI, hval⟩ := (keywordInvoke_search_inv so j cn q lr wf_raw rp_in sp_in a hQ).1
      exact (badLimit_no_valid hb hI hval).elim
  · intro f j cn q wf rp qv_raw alpha_raw lr hb
    cases hQ : hybridInvoke f j cn q wf rp qv_raw alpha_raw lr with
    | reject m => exact ⟨m, rfl⟩
    | search a =>
      obtain ⟨k, hI, hval⟩ := (hybridInvoke_search_inv f j cn q wf rp qv_raw alpha_raw lr a hQ).1
      exact (badLimit_no_valid hb hI hval).elim

/-- Claim C3, witness: the vector tool rejects a zero limit at a concrete
input. -/
theorem c3_limit_bounds_witness :
    ∃ m, vectorInvoke floatOfStrOne jsonLoadsNone "C" "1" "" "" (PyVal.int 0) =
      ToolStage.reject m :=
  c3_limit_bounds.1 floatOfStrOne jsonLoadsNone "C" "1" "" "" (PyVal.int 0) (Or.inl rfl)

/-- Claim C4: a hybrid-search invocation whose `query` is empty or
whitespace-only and whose `query_vector` parameter is an empty or
whitespace-only string is rejected with an error message and no search is
performed (when the collection name is also blank, the rejection happens one
check earlier, still before any database call). -/
theorem c4_hybrid_empty_query_rejected (floatOfStr : String → Option ℚ)
    (jsonLoads : String → Option PyVal) (cn q wf rp : String) (qs : String)
    (alpha_raw limit_raw : PyVal)
    (hq : pystrip q = "") (hqv : pystrip qs = "") :
    ∃ m, hybridInvoke floatOfStr jsonLoads cn q wf rp (PyVal.str qs) alpha_raw limit_raw =
      .reject m := by
  unfold hybridInvoke
  split
  · exact ⟨_, rfl⟩
  · rw [if_pos]
    · exact ⟨_, rfl⟩
    · simp [hq, qvStrip, hqv, pyTruthy]

/-- Claim C4, witness at a concrete whitespace-only input. -/
theorem c4_hybrid_empty_query_rejected_witness :
    ∃ m, hybridInvoke floatOfStrOne jsonLoadsNone "C" "  " "" "" (PyVal.str " ")
      (PyVal.float 1) (PyVal.int 10) = .reject m :=
  c4_hybrid_empty_query_rejected floatOfStrOne jsonLoadsNone "C" "  " "" "" " "
    (PyVal.float 1) (PyVal.int 10) (by decide) (by decide)

/-- Claim C6: when the `where_filter` string (non-blank after stripping) is
not valid JSON, or parses to a value failing `validate_where_filter`, each of
the three search tools rejects the invocation — an error message is yielded
and the Weaviate client is never queried. -/
theorem c6_malformed_filter_rejected (floatOfStr : String → Option ℚ)
    (strOracle : PyVal → String) (jsonLoads : String → Option PyVal) (wf_s : String)
    (h1 : pystrip wf_s ≠ "")
    (h2 : jsonLoads (pystrip wf_s) = none ∨
          ∃ v, jsonLoads (pystrip wf_s) = some v ∧ validate_where_filter v = false)
    (cn qv rp q : String) (limit_raw rp_in sp_in qv_raw alpha_raw : PyVal) :
    (∃ m, vectorInvoke floatOfStr jsonLoads cn qv wf_s rp limit_raw = .reject m) ∧
    (∃ m, keywordInvoke strOracle jsonLoads cn q limit_raw (.str wf_s) rp_in sp_in =
       .reject m) ∧
    (∃ m, hybridInvoke floatOfStr jsonLoads cn q wf_s rp qv_raw alpha_raw limit_raw =
       .reject m) := by
  have hparse : safe_json_parse jsonLoads (.str (pystrip wf_s)) = jsonLoads (pystrip wf_s) := by
    simp only [safe_json_parse]
    rw [pystrip_idem, if_neg h1]
  have hcontra : ∀ v, safe_json_parse jsonLoads (.str (pystrip wf_s)) = some v →
      validate_where_filter v = true → False := by
    intro v hv hval
    rw [hparse] at hv
    rcases h2 with hnone | ⟨w, hw, hwval⟩
    · rw [hnone] at hv; cases hv
    · rw [hw] at hv
      obtain rfl := Option.some.inj hv
      rw [hwval] at hval
      cases hval
  refine ⟨?_, ?_, ?_⟩
  · cases hQ : vectorInvoke floatOfStr jsonLoads cn qv wf_s rp limit_raw with
    | reject m => exact ⟨m, rfl⟩
    | search a =>
      obtain ⟨owf, hwf⟩ := (vectorInvoke_search_inv floatOfStr jsonLoads cn qv wf_s rp limit_raw a hQ).2
      rcases wfCheck_some_inv jsonLoads (pystrip wf_s) owf hwf with he | ⟨v, hv, hval⟩
      · exact absurd he h1
      · exact (hcontra v hv hval).elim
  · cases hQ : keywordInvoke strOracle jsonLoads cn q limit_raw (.str wf_s) rp_in sp_in with
    | reject m => exact ⟨m, rfl⟩
    | search a =>
      obtain ⟨owf, hwf⟩ :=
        (keywordInvoke_search_inv strOracle jsonLoads cn q limit_raw (.str wf_s) rp_in sp_in a hQ).2
      rcases kwWfCheck_str_ok_inv jsonLoads wf_s owf hwf with he | ⟨v, hv, hval⟩
      · exact absurd he h1
      · exact (hcontra v hv hval).elim
  · cases hQ : hybridInvoke floatOfStr jsonLoads cn q wf_s rp qv_raw alpha_raw limit_raw with
    | reject m => exact ⟨m, rfl⟩
    | search a =>
      obtain ⟨owf, hwf⟩ :=
        (hybridInvoke_search_inv floatOfStr jsonLoads cn q wf_s rp qv_raw alpha_raw limit_raw a hQ).2
      rcases wfCheck_some_inv jsonLoads (pystrip wf_s) owf hwf with he | ⟨v, hv, hval⟩
      · exact absurd he h1
      · exact (hcontra v hv hval).elim

/-- Claim C6, witness: a malformed `where_filter` string rejects all three
tools at a concrete input. -/
theorem c6_malformed_filter_rejected_witness :
    (∃ m, vectorInvoke floatOfStrOne jsonLoadsNone "C" "1" "not-json" "" (PyVal.int 10) =
       .reject m) ∧
    (∃ m, keywordInvoke strOracleBlank jsonLoadsNone "C" "q" (PyVal.int 10)
       (PyVal.str "not-json") PyVal.pnone PyVal.pnone = .reject m) ∧
    (∃ m, hybridInvoke floatOfStrOne jsonLoadsNone "C" "q" "not-json" ""
       (PyVal.str "") (PyVal.float 1) (PyVal.int 10) = .reject m) :=
  c6_malformed_filter_rejected floatOfStrOne strOracleBlank jsonLoadsNone "not-json"
    (by decide) (Or.inl rfl) "C" "1" "" "q" (PyVal.int 10) PyVal.pnone PyVal.pnone
    (PyVal.str "") (PyVal.float 1)

end WeaviatePlugin
